import Mathlib

/-!
Verification of the Evvo Slack bot request-processing pipeline.

The Python sources are shallowly embedded: strings become `List Char`,
dict rows become association lists, the fallible LLM / database / chart
collaborators become explicit `Except` / outcome parameters, and the
side-effecting orchestrator (`app.py`) becomes a trace-producing function.
-/

namespace EvvoBot

/-- Python strings are modelled as lists of characters. -/
abbrev Str := List Char

/-- A result row (`RealDictCursor` dict) is an association list from column
name to the string rendering of the cell value. -/
abbrev Row := List (Str × Str)

/-- The characters of a Lean string literal. -/
def strL (s : String) : Str := s.data

/-- The backtick character (code-fence marker). -/
def backtick : Char := Char.ofNat 96

/-- The single-quote character. -/
def squote : Char := Char.ofNat 39

/-- ASCII lowercasing, as Python `str.lower` / `re.IGNORECASE` act on ASCII. -/
def lowerChar (c : Char) : Char :=
  if 65 ≤ c.toNat ∧ c.toNat ≤ 90 then Char.ofNat (c.toNat + 32) else c

/-- The whitespace class of Python `str.strip` and regex `\s` (ASCII part):
space, tab, newline, carriage return, vertical tab, form feed. -/
def pyIsSpace (c : Char) : Bool :=
  c = ' ' || c = '\t' || c = '\n' || c = '\r' || c = Char.ofNat 11 || c = Char.ofNat 12

/-- Python `str.strip()`: drop leading and trailing whitespace. -/
def pyStrip (s : Str) : Str :=
  ((s.dropWhile pyIsSpace).reverse.dropWhile pyIsSpace).reverse

/-- Case-insensitive equality with a (lowercase) pattern. -/
def ciEq (s : Str) (pat : Str) : Bool := decide (s.map lowerChar = pat)

/-!
## llm.py — `_clean_sql` and the post-LLM part of `question_to_sql`

`_clean_sql` first runs `re.sub` removing every occurrence of three
backticks optionally followed by `sql` (case-insensitive), then
`str.replace` removing any remaining triple backtick, then searches for
the regex `(SELECT\b.+?;)` with `IGNORECASE | DOTALL`.
-/

/-- One left-to-right pass of `re.sub` on the fence pattern: at each
position, a triple backtick is removed together with a directly following
case-insensitive `sql`, scanning resumes after the removed text.  The
first argument is fuel (instantiated with the string length) so the
function is structurally recursive. -/
def stripFenceGo : Nat → Str → Str
  | 0, s => s
  | _ + 1, [] => []
  | f + 1, c :: rest =>
    if c = backtick ∧ rest.take 2 = [backtick, backtick] then
      if ciEq ((rest.drop 2).take 3) (strL "sql") then stripFenceGo f ((rest.drop 2).drop 3)
      else stripFenceGo f (rest.drop 2)
    else c :: stripFenceGo f rest

/-- `re.sub` of the fence pattern over the whole string. -/
def stripFenceSub (s : Str) : Str := stripFenceGo s.length s

/-- Python `str.replace` of a bare triple backtick by the empty string
(left-to-right, non-overlapping), again fuelled by the length. -/
def removeTriplesGo : Nat → Str → Str
  | 0, s => s
  | _ + 1, [] => []
  | f + 1, c :: rest =>
    if c = backtick ∧ rest.take 2 = [backtick, backtick] then removeTriplesGo f (rest.drop 2)
    else c :: removeTriplesGo f rest

/-- The fence-stripping pipeline of `_clean_sql` line 41. -/
def fenceStripped (raw : Str) : Str :=
  removeTriplesGo (stripFenceSub raw).length (stripFenceSub raw)

/-- Least index at or after the start index (second argument) satisfying
the predicate, scanning a fuelled number of positions. -/
def scanFirst (p : Nat → Bool) : Nat → Nat → Option Nat
  | _, 0 => none
  | i, f + 1 => if p i then some i else scanFirst p (i + 1) f

/-- A regex word character (`\w`, ASCII): letter, digit or underscore. -/
def wordChar (c : Char) : Bool :=
  ('a' ≤ c && c ≤ 'z') || ('A' ≤ c && c ≤ 'Z') || ('0' ≤ c && c ≤ '9') || c = '_'

/-- The characters of `s` from index `i` match the (lowercase) pattern
case-insensitively. -/
def ciAt (s : Str) (i : Nat) (pat : Str) : Bool :=
  decide (((s.drop i).take pat.length).map lowerChar = pat)

/-- Index `j` is inside the string and holds a semicolon. -/
def isSemiAt (s : Str) (j : Nat) : Bool :=
  decide (j < s.length) && decide (s.getD j ' ' = ';')

/-- Least semicolon index at or after `k` (the regex `.+?;` target). -/
def semiIdx (s : Str) (k : Nat) : Option Nat :=
  scanFirst (fun j => isSemiAt s j) k (s.length - k)

/-- Index `j` is inside the string and holds a non-word character. -/
def nonWordAt (s : Str) (j : Nat) : Bool :=
  decide (j < s.length) && !wordChar (s.getD j ' ')

/-- The regex `SELECT\b.+?;` matches anchored at position `i`:
case-insensitive `select`, a word boundary which the following `.+?`
must consume (so a non-word character at `i+6`), and a semicolon at
some index at least `i+7`. -/
def matchSelectHead (s : Str) (i : Nat) : Bool :=
  ciAt s i (strL "select") && nonWordAt s (i + 6) && (semiIdx s (i + 7)).isSome

/-- Leftmost start position of a `SELECT\b.+?;` match (`re.search`). -/
def findSelectStart (s : Str) : Option Nat :=
  scanFirst (matchSelectHead s) 0 s.length

/-- `_clean_sql` (llm.py lines 38-48): strip fences, return the first
`SELECT ... ;` match stripped if one exists, else the stripped remainder. -/
def clean_sql (raw : Str) : Str :=
  match findSelectStart (fenceStripped raw) with
  | some i =>
    match semiIdx (fenceStripped raw) (i + 7) with
    | some j => pyStrip (((fenceStripped raw).take (j + 1)).drop i)
    | none => pyStrip (fenceStripped raw)
  | none => pyStrip (fenceStripped raw)

/-- `sql.lower().startswith(pat)` for a lowercase pattern. -/
def lowerStarts (s : Str) (pat : Str) : Bool :=
  decide ((s.take pat.length).map lowerChar = pat)

/-- The post-completion part of `question_to_sql` (llm.py lines 79-87):
clean the raw model output and fail (`ValueError` carrying the raw
output) unless the result starts with `select`. -/
def question_to_sql_post (raw : Str) : Except Str Str :=
  if lowerStarts (clean_sql raw) (strL "select") then Except.ok (clean_sql raw)
  else Except.error raw

/-- The first (leftmost, then shortest) `SELECT ... ;` match of the claim:
position `i` starts a match and no earlier position does; `j` is the
first semicolon index available to that match. -/
def firstSelectMatch (s : Str) (i j : Nat) : Prop :=
  matchSelectHead s i = true ∧ (∀ k, k < i → matchSelectHead s k = false) ∧
  i + 7 ≤ j ∧ isSemiAt s j = true ∧
  (∀ k, k < j → i + 7 ≤ k → isSemiAt s k = false)

instance {α β : Type} [DecidableEq α] [DecidableEq β] : DecidableEq (Except α β) := fun a b =>
  match a, b with
  | .ok x, .ok y =>
    if h : x = y then .isTrue (by rw [h]) else .isFalse (fun hc => by cases hc; exact h rfl)
  | .error x, .error y =>
    if h : x = y then .isTrue (by rw [h]) else .isFalse (fun hc => by cases hc; exact h rfl)
  | .ok _, .error _ => .isFalse (fun hc => by cases hc)
  | .error _, .ok _ => .isFalse (fun hc => by cases hc)

instance (s : Str) (i j : Nat) : Decidable (firstSelectMatch s i j) := by
  unfold firstSelectMatch; exact inferInstance

/-!
## chart.py — `is_date_range_query` (lines 26-41)

The source uppercases the SQL and searches seven lowercase patterns with
`re.IGNORECASE`; the net effect on ASCII is case-insensitive matching,
modelled here by anchored matchers over the original string.
-/

/-- A `\b` boundary just before position `i` (pattern starts with a word
character). -/
def boundaryBefore (s : Str) (i : Nat) : Bool :=
  decide (i = 0) || !wordChar (s.getD (i - 1) ' ')

/-- A `\b` boundary just before position `j` seen from the left (pattern
ends with a word character at `j - 1`). -/
def boundaryAt (s : Str) (j : Nat) : Bool :=
  decide (s.length ≤ j) || !wordChar (s.getD j ' ')

/-- `\bBETWEEN\b` anchored at `i`. -/
def betweenAt (s : Str) (i : Nat) : Bool :=
  boundaryBefore s i && ciAt s i (strL "between") && boundaryAt s (i + 7)

/-- Index after a maximal run of `\s` starting at `j` (the patterns only
ever follow the run with a non-space character, so maximal munch agrees
with the regex). -/
def skipWs (s : Str) (j : Nat) : Nat :=
  j + ((s.drop j).takeWhile pyIsSpace).length

/-- Literal characters of `pat` matched at `i`. -/
def litAt (s : Str) (i : Nat) (pat : Str) : Bool :=
  decide ((s.drop i).take pat.length = pat)

/-- `date\s*OP` anchored at `i`, for a comparison operator `OP`. -/
def dateCmpAt (s : Str) (op : Str) (i : Nat) : Bool :=
  ciAt s i (strL "date") && litAt s (skipWs s (i + 4)) op

/-- `KW\s+BY\s+date` anchored at `i` (for `GROUP` and `ORDER`). -/
def byDateAt (s : Str) (kw : Str) (i : Nat) : Bool :=
  ciAt s i kw &&
    (decide (i + kw.length < skipWs s (i + kw.length)) &&
      ciAt s (skipWs s (i + kw.length)) (strL "by")) &&
    (decide (skipWs s (i + kw.length) + 2 < skipWs s (skipWs s (i + kw.length) + 2)) &&
      ciAt s (skipWs s (skipWs s (i + kw.length) + 2)) (strL "date"))

/-- `re.search` of an anchored matcher: some position matches. -/
def containsPat (s : Str) (p : Nat → Bool) : Bool :=
  (List.range (s.length + 1)).any p

/-- `is_date_range_query` (chart.py lines 26-41): any of the seven
patterns occurs in the SQL text. -/
def is_date_range_query (s : Str) : Bool :=
  containsPat s (betweenAt s) || containsPat s (dateCmpAt s (strL ">=")) ||
  containsPat s (dateCmpAt s (strL "<=")) || containsPat s (dateCmpAt s (strL ">")) ||
  containsPat s (dateCmpAt s (strL "<")) || containsPat s (byDateAt s (strL "group")) ||
  containsPat s (byDateAt s (strL "order"))

/-- The claim's reading of the classifier: the text contains a (word
bounded) `BETWEEN`, or a comparison directly after `date` (optional
whitespace), or a `GROUP BY date` / `ORDER BY date` clause. -/
def specDateRangeQuery (s : Str) : Prop :=
  (∃ i, betweenAt s i = true) ∨ (∃ i, dateCmpAt s (strL ">=") i = true) ∨
  (∃ i, dateCmpAt s (strL "<=") i = true) ∨ (∃ i, dateCmpAt s (strL ">") i = true) ∨
  (∃ i, dateCmpAt s (strL "<") i = true) ∨ (∃ i, byDateAt s (strL "group") i = true) ∨
  (∃ i, byDateAt s (strL "order") i = true)

/-- The claim's first example: a `WHERE date BETWEEN` date-range query. -/
def sqlBetweenExample : Str :=
  strL "SELECT * FROM sales WHERE date BETWEEN " ++ [squote] ++ strL "2025-01-01" ++ [squote] ++
    strL " AND " ++ [squote] ++ strL "2025-01-31" ++ [squote]

/-- The claim's second example: a `GROUP BY date` query. -/
def sqlGroupByDateExample : Str :=
  strL "SELECT date, SUM(revenue) FROM sales GROUP BY date"

/-- The claim's third example: a query with no date-range pattern. -/
def sqlGroupByRegionExample : Str :=
  strL "SELECT region, SUM(revenue) FROM t GROUP BY region"

/-!
## db.py — the pure core of `execute_query` (lines 45-71) and
`format_slack_table` (lines 74-111)

The data-store collaborator is abstracted as the list of rows `fetchall`
returns (or the error it raises); the connection-pool side effects are
recorded as an event trace for the exit-path claims.
-/

def PREVIEW_ROW_LIMIT : Nat := 10

/-- The pure result part of `execute_query`: total count of all fetched
rows, preview of the first `PREVIEW_ROW_LIMIT`, columns from the keys of
the first preview row (empty when there are no rows). -/
def execute_query_model (allRows : List Row) : List Str × List Row × Nat :=
  (match allRows.take PREVIEW_ROW_LIMIT with
   | [] => []
   | r :: _ => r.map Prod.fst,
   allRows.take PREVIEW_ROW_LIMIT, allRows.length)

/-- Connection events of one `execute_query` call, in order. -/
inductive DbEv where
  | runQuery
  | rollback
  | commit
  | putconn
  deriving DecidableEq

/-- `execute_query` (db.py lines 60-71) with the store abstracted as the
outcome of `cur.execute` + `fetchall`: on success the `with` block runs,
then `connection.rollback()`, then the `finally` releases the connection;
on a store exception control jumps from inside the `try` straight to the
`finally`, so only `putconn` runs.  No path ever calls `commit`. -/
def execute_query_events (fetch : Except Str (List Row)) :
    Except Str (List Str × List Row × Nat) × List DbEv :=
  match fetch with
  | .ok allRows =>
    (.ok (execute_query_model allRows), [DbEv.runQuery, DbEv.rollback, DbEv.putconn])
  | .error e => (.error e, [DbEv.runQuery, DbEv.putconn])

/-- `row.get(col, "")`. -/
def rowGet (r : Row) (c : Str) : Str := (List.lookup c r).getD []

/-- The `col_widths` entry for one column: fold of `max` over the rows,
seeded with the header length (db.py lines 90-93). -/
def colWidth (rows : List Row) (c : Str) : Nat :=
  rows.foldl (fun w r => max w (rowGet r c).length) c.length

/-- Python `str.ljust`. -/
def ljust (s : Str) (w : Nat) : Str := s ++ List.replicate (w - s.length) ' '

/-- The inner `fmt_row` of `format_slack_table` (db.py lines 95-98). -/
def fmt_row (columns : List Str) (rows : List Row) (values : List Str) : Str :=
  strL "| " ++
    List.intercalate (strL " | ")
      ((columns.zip values).map (fun cv => ljust cv.2 (colWidth rows cv.1))) ++
    strL " |"

/-- The separator line (db.py line 100). -/
def sepLine (columns : List Str) (rows : List Row) : Str :=
  strL "+-" ++
    List.intercalate (strL "-+-")
      (columns.map (fun c => List.replicate (colWidth rows c) '-')) ++
    strL "-+"

/-- The rendered data rows, in row order (db.py line 102). -/
def dataLines (columns : List Str) (rows : List Row) : List Str :=
  rows.map (fun r => fmt_row columns rows (columns.map (fun c => rowGet r c)))

/-- Decimal rendering of a natural number, as Python str(int). -/
def natStr (n : Nat) : Str := Nat.toDigits 10 n

/-- The truncation footer text (db.py line 109). -/
def footerStr (k n : Nat) : Str :=
  strL "\n_Showing " ++ natStr k ++ strL " of " ++ natStr n ++ strL " rows._"

/-- `format_slack_table` (db.py lines 74-111). -/
def format_slack_table (columns : List Str) (rows : List Row) (total : Nat) : Str :=
  if rows.isEmpty then strL "_No rows returned._"
  else
    List.intercalate (strL "\n")
      ([sepLine columns rows, fmt_row columns rows columns, sepLine columns rows] ++
        dataLines columns rows ++ [sepLine columns rows]) ++
    (if rows.length < total then footerStr rows.length total else [])

/-- A 37-row store result for the claim's concrete scenario. -/
def rows37 : List Row := (List.range 37).map (fun i => [(strL "n", natStr i)])

/-- Its column set. -/
def cols37 : List Str := [strL "n"]

/-!
## chart.py — `generate_chart` eligibility (lines 44-78) and
`cleanup_chart` (lines 154-160)

`float(str(v))` is modelled by an ASCII parser for the Python float
literal grammar (optional sign, digit runs with single underscores
between digits, optional fraction and exponent, `inf`/`infinity`/`nan`,
surrounding whitespace).
-/

/-- Consume the continuation of a digit run: further digits, and a single
underscore only when a digit follows.  Fuelled with the list length. -/
def digitsCont : Nat → Str → Str
  | 0, s => s
  | _ + 1, [] => []
  | f + 1, c :: rest =>
    if c.isDigit then digitsCont f rest
    else if c = '_' then
      match rest with
      | d :: rest2 => if d.isDigit then digitsCont f rest2 else c :: rest
      | [] => c :: rest
    else c :: rest

/-- Consume a digit run (at least one digit); `none` when the input does
not start with a digit, else the remainder. -/
def digitRun (s : Str) : Option Str :=
  match s with
  | c :: rest => if c.isDigit then some (digitsCont rest.length rest) else none
  | [] => none

/-- After the mantissa: either the end of the input or an exponent part
consuming everything that is left. -/
def expTail (s : Str) : Bool :=
  match s with
  | [] => true
  | c :: r =>
    if lowerChar c = 'e' then
      match (match r with
             | d :: r2 => if d = '+' || d = '-' then r2 else d :: r2
             | [] => []) with
      | s1 =>
        match digitRun s1 with
        | some rest => rest.isEmpty
        | none => false
    else false

/-- The unsigned numeric body of a Python float literal. -/
def parseNumber (s : Str) : Bool :=
  match digitRun s with
  | some rest =>
    match rest with
    | '.' :: r2 =>
      (match digitRun r2 with
       | some r3 => expTail r3
       | none => expTail r2)
    | _ => expTail rest
  | none =>
    match s with
    | '.' :: r2 =>
      (match digitRun r2 with
       | some r3 => expTail r3
       | none => false)
    | _ => false

/-- Whether Python `float(s)` succeeds. -/
def pyFloatParses (s : Str) : Bool :=
  match pyStrip s with
  | [] => false
  | c :: r =>
    match (if c = '+' || c = '-' then r else c :: r) with
    | t1 =>
      ciEq t1 (strL "inf") || ciEq t1 (strL "infinity") || ciEq t1 (strL "nan") ||
        parseNumber t1

/-- The eligibility decision of `generate_chart` (chart.py lines 60-78):
`none` when matplotlib is unavailable, when there are fewer than 2
columns or no rows, or when no column after the first has a first-row
value parsing as a float; otherwise the plotted series.  Producing `some`
abstracts the rendering of lines 83-151 and the returned artifact path. -/
def generate_chart_model (matplotlibAvailable : Bool) (columns : List Str) (rows : List Row) :
    Option (List Str) :=
  if !matplotlibAvailable then none
  else if rows.isEmpty || columns.length < 2 then none
  else
    match (columns.drop 1).filter (fun c => pyFloatParses (rowGet (rows.headD []) c)) with
    | [] => none
    | y :: ys => some (y :: ys)

/-- `cleanup_chart` (chart.py lines 154-160) over a filesystem modelled as
the list of existing paths: delete the file when the path is non-empty
and exists, otherwise do nothing.  The `try/except OSError: pass` makes
the Python function total (it never raises), as is this model. -/
def cleanup_chart (fs : List Str) (path : Str) : List Str :=
  if path ≠ [] ∧ path ∈ fs then fs.filter (fun q => decide (q ≠ path)) else fs

/-!
## app.py — the orchestrator `handle_ask_data` / `process` (lines 48-147)

One request is modelled as the ordered trace of its externally visible
actions, with the three fallible collaborators (LLM transport, data
store, chart rendering/upload) supplied as outcome parameters.
-/

/-- Externally visible actions of one request. -/
inductive Act where
  | ack
  | respondUsage
  | respondWorking
  | callLLM
  | respondSynthError
  | runSQL
  | respondExecError
  | respondResults
  | chartCreate (p : Str)
  | chartUpload (p : Str)
  | chartLogFail
  | chartDelete (p : Str)
  deriving DecidableEq

/-- A user-facing `respond` action. -/
def isRespondAct : Act → Bool
  | Act.respondUsage => true
  | Act.respondWorking => true
  | Act.respondSynthError => true
  | Act.respondExecError => true
  | Act.respondResults => true
  | _ => false

/-- A user-facing error `respond`. -/
def isErrorRespond : Act → Bool
  | Act.respondUsage => true
  | Act.respondSynthError => true
  | Act.respondExecError => true
  | _ => false

/-- Outcome of the `generate_chart(...)` call as seen by `process`:
returned `None`, returned a path, raised after the temp file was created
(e.g. `savefig` failed), or raised before creating it. -/
inductive RenderOutcome where
  | noChart
  | chartPath (p : Str)
  | raiseAfterCreate (p : Str)
  | raiseBeforeCreate
  deriving DecidableEq

/-- The chart block of `process` (app.py lines 126-145): `chart_path`
starts as `None` and is assigned only when `generate_chart` returns; any
exception from rendering or upload is caught and logged; the `finally`
deletes the artifact only when `chart_path` is set. -/
def chartBlock (ro : RenderOutcome) (uploadOk : Bool) : List Act :=
  match ro with
  | RenderOutcome.noChart => []
  | RenderOutcome.chartPath p =>
    Act.chartCreate p ::
      (if uploadOk then [Act.chartUpload p] else [Act.chartLogFail]) ++ [Act.chartDelete p]
  | RenderOutcome.raiseAfterCreate p => [Act.chartCreate p, Act.chartLogFail]
  | RenderOutcome.raiseBeforeCreate => [Act.chartLogFail]

/-- `question_to_sql` with the completion transport abstracted: a
transport error propagates, a completion is post-processed. -/
def synthStep (llm : Except Str Str) : Except Str Str :=
  match llm with
  | .error e => .error e
  | .ok raw => question_to_sql_post raw

/-- The background `process` closure (app.py lines 73-146) as a trace:
synthesis errors and execution errors respond and stop; otherwise the
results are delivered, and when the SQL is a date-range query and the
preview is non-empty the chart block runs. -/
def processTrace (llm : Except Str Str) (store : Except Str (List Row))
    (ro : RenderOutcome) (uploadOk : Bool) : List Act :=
  Act.callLLM ::
    match synthStep llm with
    | .error _ => [Act.respondSynthError]
    | .ok sql =>
      Act.runSQL ::
        match store with
        | .error _ => [Act.respondExecError]
        | .ok allRows =>
          Act.respondResults ::
            (if is_date_range_query sql && !(execute_query_model allRows).2.1.isEmpty
             then chartBlock ro uploadOk else [])

/-- `handle_ask_data` (app.py lines 48-68 plus the thread body): ack, then
either the usage hint (empty question) or the working notice followed by
the pipeline. -/
def handle_ask_data_trace (text : Option Str) (llm : Except Str Str)
    (store : Except Str (List Row)) (ro : RenderOutcome) (uploadOk : Bool) : List Act :=
  if pyStrip (text.getD []) = [] then [Act.ack, Act.respondUsage]
  else Act.ack :: Act.respondWorking :: processTrace llm store ro uploadOk

/-- Occurrences of `chartCreate p` in a trace. -/
def countCreate (p : Str) : List Act → Nat
  | [] => 0
  | a :: tr => (if a = Act.chartCreate p then 1 else 0) + countCreate p tr

/-- Occurrences of `chartDelete p` in a trace. -/
def countDelete (p : Str) : List Act → Nat
  | [] => 0
  | a :: tr => (if a = Act.chartDelete p then 1 else 0) + countDelete p tr

/-- A completion whose SQL is a date-range query, for the orchestrator
scenarios. -/
def okLlm : Except Str Str := Except.ok (strL "SELECT * FROM t WHERE date BETWEEN 1 AND 2;")

/-- A one-row store result for the orchestrator scenarios. -/
def okStore : Except Str (List Row) := Except.ok [[(strL "x", strL "1")]]

/-- An artifact path for the orchestrator scenarios. -/
def chartPathEx : Str := strL "/tmp/chart.png"

/-- The spec's renderer-eligibility example columns. -/
def chartCols : List Str := [strL "region", strL "revenue"]

/-- The spec's renderer-eligibility example row. -/
def chartRows : List Row := [[(strL "region", strL "North"), (strL "revenue", strL "100")]]

theorem scanFirst_eq_some (p : Nat → Bool) :
    ∀ (fuel i j : Nat), i ≤ j → j < i + fuel → p j = true →
      (∀ k, i ≤ k → k < j → p k = false) → scanFirst p i fuel = some j := by
  intro fuel
  induction fuel with
  | zero => intro i j h1 h2 _ _; omega
  | succ f ih =>
    intro i j h1 h2 hj hmin
    by_cases hpi : p i = true
    · have hij : i = j := by
        by_contra hne
        have hfalse := hmin i le_rfl (lt_of_le_of_ne h1 hne)
        rw [hpi] at hfalse; cases hfalse
      subst hij
      simp [scanFirst, hpi]
    · have hpi' : p i = false := by simpa using hpi
      have hij : i < j := by
        rcases Nat.lt_or_ge i j with h | h
        · exact h
        · have : i = j := le_antisymm h1 h
          subst this; rw [hj] at hpi'; cases hpi'
      have hrec := ih (i + 1) j hij (by omega) hj (fun k hk1 hk2 => hmin k (by omega) hk2)
      simp [scanFirst, hpi', hrec]

theorem scanFirst_eq_none (p : Nat → Bool) (h : ∀ k, p k = false) :
    ∀ (fuel i : Nat), scanFirst p i fuel = none := by
  intro fuel
  induction fuel with
  | zero => intro i; rfl
  | succ f ih => intro i; simp [scanFirst, h i, ih]

theorem ciAt_bound {s pat : Str} {i : Nat} (h : ciAt s i pat = true) (hp : pat ≠ []) :
    i + pat.length ≤ s.length := by
  have hlen : ((s.drop i).take pat.length).length = pat.length := by
    have h2 := congrArg List.length (of_decide_eq_true h)
    simpa using h2
  rw [List.length_take, List.length_drop] at hlen
  have hpos : 0 < pat.length := List.length_pos.mpr hp
  omega

theorem pyIsSpace_of_lower_s {c : Char} (h : lowerChar c = 's') : pyIsSpace c = false := by
  by_contra hsp
  have hsp' : pyIsSpace c = true := by simpa using hsp
  simp only [pyIsSpace, Bool.or_eq_true, decide_eq_true_eq] at hsp'
  rcases hsp' with ((((h1 | h1) | h1) | h1) | h1) | h1 <;> subst h1 <;> exact absurd h (by decide)

theorem clean_sql_of_match (raw : Str) {i j : Nat}
    (hfind : findSelectStart (fenceStripped raw) = some i)
    (hsemi : semiIdx (fenceStripped raw) (i + 7) = some j) :
    clean_sql raw = pyStrip (((fenceStripped raw).take (j + 1)).drop i) := by
  unfold clean_sql
  rw [hfind]
  show (match semiIdx (fenceStripped raw) (i + 7) with
        | some j => pyStrip (((fenceStripped raw).take (j + 1)).drop i)
        | none => pyStrip (fenceStripped raw)) = _
  rw [hsemi]

theorem clean_sql_of_no_match (raw : Str)
    (hfind : findSelectStart (fenceStripped raw) = none) :
    clean_sql raw = pyStrip (fenceStripped raw) := by
  unfold clean_sql
  rw [hfind]

theorem matchSelectHead_bound {s : Str} {i : Nat} (h : matchSelectHead s i = true) :
    i < s.length := by
  simp only [matchSelectHead, Bool.and_eq_true] at h
  have hb := ciAt_bound h.1.1 (by decide)
  have h6 : (strL "select").length = 6 := by decide
  omega

theorem allMatchFalse_of_bounded {s : Str}
    (h : ∀ i, i < s.length → matchSelectHead s i = false) :
    ∀ i, matchSelectHead s i = false := by
  intro i
  by_cases hi : i < s.length
  · exact h i hi
  · by_contra hc
    have ht : matchSelectHead s i = true := by simpa using hc
    exact hi (matchSelectHead_bound ht)

theorem slice_decomp {s : Str} {i j : Nat} (hij : i ≤ j) (hjlt : j < s.length)
    (hsemiChar : s.getD j ' ' = ';') :
    (s.take (j + 1)).drop i = (s.take j).drop i ++ [';'] := by
  have hgetj : s[j] = ';' := by
    have hd := List.getD_eq_getElem?_getD s j ' '
    rw [List.getElem?_eq_getElem hjlt] at hd
    simp only [Option.getD_some] at hd
    exact hd.symm.trans hsemiChar
  rw [List.take_succ, List.getElem?_eq_getElem hjlt, hgetj]
  rw [List.drop_append_eq_append_drop]
  have hlen : (s.take j).length = j := by rw [List.length_take]; omega
  rw [hlen]
  have h0 : i - j = 0 := by omega
  rw [h0]
  simp

theorem slice_head_select {s : Str} {i j : Nat}
    (hci : ciAt s i (strL "select") = true) (h7 : i + 7 ≤ j) (_hjle : j ≤ s.length) :
    ∃ b B', (s.take j).drop i = b :: B' ∧ lowerChar b = 's' ∧
      (((s.take j).drop i).take 6).map lowerChar = strL "select" := by
  have hB : (s.take j).drop i = (s.drop i).take (j - i) := List.drop_take j i s
  have htake6 : ((s.take j).drop i).take 6 = (s.drop i).take 6 := by
    rw [hB, List.take_take]
    have hmin : min 6 (j - i) = 6 := by omega
    rw [hmin]
  have hmap : (((s.take j).drop i).take 6).map lowerChar = strL "select" := by
    rw [htake6]
    exact of_decide_eq_true hci
  cases hBc : (s.take j).drop i with
  | nil =>
    rw [hBc] at hmap
    exact absurd hmap (by decide)
  | cons b B' =>
    rw [hBc] at hmap
    have hmap2 := hmap
    have hsel : strL "select" = 's' :: strL "elect" := by decide
    rw [List.take_succ_cons, List.map_cons, hsel] at hmap2
    injection hmap2 with hh _
    exact ⟨b, B', rfl, hh, hmap⟩

theorem pyStrip_of_nonspace_ends {b : Char} {B' : Str}
    (hb : pyIsSpace b = false) :
    pyStrip (b :: (B' ++ [';'])) = b :: (B' ++ [';']) := by
  unfold pyStrip
  rw [List.dropWhile_cons, hb]
  simp only [Bool.false_eq_true, if_false]
  rw [show (b :: (B' ++ [';'])).reverse = ';' :: (b :: B').reverse by simp]
  rw [List.dropWhile_cons, show pyIsSpace ';' = false from by decide]
  simp

/-- Claim C1: for every raw completion output, synthesize post-processes it
by stripping code fences; if the fence-stripped text has a (leftmost, then
shortest) substring matching `SELECT ... ;` (case-insensitive, spanning
newlines), the result is exactly that substring trimmed; if no position
starts such a match and the trimmed text does not start with `select`,
it fails carrying the raw model output. -/
theorem C1_synthesizer_validity (raw : Str) :
    (∀ i j, firstSelectMatch (fenceStripped raw) i j →
      question_to_sql_post raw =
        Except.ok (pyStrip (((fenceStripped raw).take (j + 1)).drop i))) ∧
    ((∀ i, matchSelectHead (fenceStripped raw) i = false) →
      lowerStarts (pyStrip (fenceStripped raw)) (strL "select") = false →
      question_to_sql_post raw = Except.error raw) := by
  constructor
  · intro i j hm
    obtain ⟨h1, h2, h3, h4, h5⟩ := hm
    have h1' := h1
    simp only [matchSelectHead, Bool.and_eq_true] at h1'
    obtain ⟨⟨hci, _hnw⟩, _hsome⟩ := h1'
    have h4' := h4
    simp only [isSemiAt, Bool.and_eq_true, decide_eq_true_eq] at h4'
    obtain ⟨hjlt, hsemiChar⟩ := h4'
    have hib : i + 6 ≤ (fenceStripped raw).length := by
      have hb := ciAt_bound hci (by decide)
      simpa using hb
    have hfind : findSelectStart (fenceStripped raw) = some i := by
      unfold findSelectStart
      exact scanFirst_eq_some _ _ 0 i (Nat.zero_le i) (by omega) h1 (fun k _ hk => h2 k hk)
    have hsemi : semiIdx (fenceStripped raw) (i + 7) = some j := by
      unfold semiIdx
      exact scanFirst_eq_some _ _ (i + 7) j h3 (by omega) h4 (fun k hk1 hk2 => h5 k hk2 hk1)
    have hclean := clean_sql_of_match raw hfind hsemi
    have hslice := slice_decomp (by omega : i ≤ j) hjlt hsemiChar
    obtain ⟨b, B', hBc, hbs, _⟩ := slice_head_select hci h3 (le_of_lt hjlt)
    have hbsp := pyIsSpace_of_lower_s hbs
    have hstrip : pyStrip (((fenceStripped raw).take (j + 1)).drop i) =
        ((fenceStripped raw).take (j + 1)).drop i := by
      rw [hslice, hBc]
      exact pyStrip_of_nonspace_ends hbsp
    have hBlen : (((fenceStripped raw).take j).drop i).length = j - i := by
      rw [List.length_drop, List.length_take]; omega
    have hstarts : lowerStarts (((fenceStripped raw).take (j + 1)).drop i)
        (strL "select") = true := by
      apply decide_eq_true
      rw [hslice]
      have h6le : (strL "select").length ≤ (((fenceStripped raw).take j).drop i).length := by
        rw [hBlen]
        have : (strL "select").length = 6 := by decide
        omega
      rw [List.take_append_of_le_length h6le]
      obtain ⟨_, _, _, _, hmap⟩ := slice_head_select hci h3 (le_of_lt hjlt)
      exact hmap
    unfold question_to_sql_post
    rw [hclean, hstrip]
    simp [hstarts]
  · intro hall hstart
    have hfind : findSelectStart (fenceStripped raw) = none := by
      unfold findSelectStart
      exact scanFirst_eq_none _ hall _ _
    have hclean := clean_sql_of_no_match raw hfind
    unfold question_to_sql_post
    rw [hclean]
    simp [hstart]

/-- Concrete instantiation of Claim C1: a fenced completion around
`SELECT * FROM t;` extracts that statement, and prose with no match
and no leading `select` is rejected carrying the raw output. -/
theorem C1_witness :
    question_to_sql_post (strL "```sql\nSELECT * FROM t;\n```") =
      Except.ok (strL "SELECT * FROM t;") ∧
    question_to_sql_post (strL "I cannot answer that") =
      Except.error (strL "I cannot answer that") := by
  constructor
  · have h := (C1_synthesizer_validity (strL "```sql\nSELECT * FROM t;\n```")).1 1 16 (by decide)
    have e : pyStrip (((fenceStripped (strL "```sql\nSELECT * FROM t;\n```")).take 17).drop 1) =
        strL "SELECT * FROM t;" := by decide
    rw [e] at h
    exact h
  · exact (C1_synthesizer_validity (strL "I cannot answer that")).2
      (allMatchFalse_of_bounded (by decide)) (by decide)

theorem containsPat_iff (s : Str) (p : Nat → Bool)
    (hb : ∀ i, p i = true → i ≤ s.length) :
    containsPat s p = true ↔ ∃ i, p i = true := by
  unfold containsPat
  rw [List.any_eq_true]
  constructor
  · rintro ⟨i, _, hp⟩
    exact ⟨i, hp⟩
  · rintro ⟨i, hp⟩
    exact ⟨i, List.mem_range.mpr (by have := hb i hp; omega), hp⟩

theorem betweenAt_bound {s : Str} {i : Nat} (h : betweenAt s i = true) : i ≤ s.length := by
  simp only [betweenAt, Bool.and_eq_true] at h
  have hb := ciAt_bound h.1.2 (by decide)
  omega

theorem dateCmpAt_bound {s op : Str} {i : Nat} (h : dateCmpAt s op i = true) :
    i ≤ s.length := by
  simp only [dateCmpAt, Bool.and_eq_true] at h
  have hb := ciAt_bound h.1 (by decide)
  omega

theorem byDateAt_bound {s kw : Str} {i : Nat} (hkw : kw ≠ [])
    (h : byDateAt s kw i = true) : i ≤ s.length := by
  simp only [byDateAt, Bool.and_eq_true] at h
  have hb := ciAt_bound h.1.1 hkw
  have hp := List.length_pos.mpr hkw
  omega

/-- Claim C5: `is_date_range_query` is true iff the text contains a
`BETWEEN` keyword, a comparison after the token `date`, or a
`GROUP BY date` / `ORDER BY date` clause, case-insensitively; it is true
on the claim's two date-range examples and false on the `GROUP BY region`
example. -/
theorem C5_classifier (s : Str) :
    (is_date_range_query s = true ↔ specDateRangeQuery s) ∧
    is_date_range_query sqlBetweenExample = true ∧
    is_date_range_query sqlGroupByDateExample = true ∧
    is_date_range_query sqlGroupByRegionExample = false := by
  refine ⟨?_, by decide, by decide, by decide⟩
  unfold is_date_range_query specDateRangeQuery
  simp only [Bool.or_eq_true]
  rw [containsPat_iff s (betweenAt s) (fun i h => betweenAt_bound h),
      containsPat_iff s (dateCmpAt s (strL ">=")) (fun i h => dateCmpAt_bound h),
      containsPat_iff s (dateCmpAt s (strL "<=")) (fun i h => dateCmpAt_bound h),
      containsPat_iff s (dateCmpAt s (strL ">")) (fun i h => dateCmpAt_bound h),
      containsPat_iff s (dateCmpAt s (strL "<")) (fun i h => dateCmpAt_bound h),
      containsPat_iff s (byDateAt s (strL "group")) (fun i h => byDateAt_bound (by decide) h),
      containsPat_iff s (byDateAt s (strL "order")) (fun i h => byDateAt_bound (by decide) h)]
  tauto

/-- Claim C2: the executor's preview is the first `min(totalCount, 10)`
rows in store order and the total is exact; concretely 37 rows give a
10-row preview, total 37, and the footer `Showing 10 of 37 rows.`. -/
theorem C2_executor_count (allRows : List Row) :
    (execute_query_model allRows).2.1 = allRows.take PREVIEW_ROW_LIMIT ∧
    (execute_query_model allRows).2.1.length =
      min (execute_query_model allRows).2.2 PREVIEW_ROW_LIMIT ∧
    (execute_query_model allRows).2.2 = allRows.length ∧
    (execute_query_model rows37).2.1.length = 10 ∧
    (execute_query_model rows37).2.2 = 37 ∧
    format_slack_table cols37 (execute_query_model rows37).2.1 37 =
      format_slack_table cols37 (execute_query_model rows37).2.1 10 ++
        strL "\n_Showing 10 of 37 rows._" := by
  refine ⟨rfl, ?_, rfl, by decide, by decide, by decide⟩
  show (allRows.take PREVIEW_ROW_LIMIT).length = min allRows.length PREVIEW_ROW_LIMIT
  rw [List.length_take]
  exact Nat.min_comm _ _

theorem foldl_max_shift (c : Str) :
    ∀ (l : List Row) (a : Nat),
      l.foldl (fun w r => max w (rowGet r c).length) a =
        max a ((l.map (fun r => (rowGet r c).length)).foldr max 0) := by
  intro l
  induction l with
  | nil => intro a; simp
  | cons x l ih =>
    intro a
    simp only [List.foldl_cons, List.map_cons, List.foldr_cons, ih]
    exact Nat.max_assoc a (rowGet x c).length _

/-- Claim C6: for non-empty previews the column width is the maximum of
header length and cell lengths, the footer is appended iff the total
strictly exceeds the preview length, and data lines are the rows rendered
in order. -/
theorem C6_formatter (columns : List Str) (rows : List Row) (total : Nat) (h : rows ≠ []) :
    (∀ c, colWidth rows c =
        max c.length ((rows.map (fun r => (rowGet r c).length)).foldr max 0)) ∧
    format_slack_table columns rows total =
      format_slack_table columns rows rows.length ++
        (if rows.length < total then footerStr rows.length total else []) ∧
    (∀ i : Nat, (dataLines columns rows)[i]? =
        (rows[i]?).map (fun r => fmt_row columns rows (columns.map (fun c => rowGet r c)))) := by
  refine ⟨fun c => foldl_max_shift c rows c.length, ?_, fun i => ?_⟩
  · unfold format_slack_table
    have hne : ¬ rows.isEmpty = true := by
      cases rows with
      | nil => exact absurd rfl h
      | cons a l => simp
    rw [if_neg hne, if_neg hne, if_neg (lt_irrefl rows.length), List.append_nil]
  · unfold dataLines
    exact List.getElem?_map _ _ _

/-- Concrete instantiation of Claim C6 at a one-column, one-row table. -/
theorem C6_witness :
    colWidth [[(strL "a", strL "xyz")]] (strL "a") =
      max (strL "a").length
        (([[(strL "a", strL "xyz")]].map (fun r => (rowGet r (strL "a")).length)).foldr max 0) ∧
    format_slack_table [strL "a"] [[(strL "a", strL "xyz")]] 5 =
      format_slack_table [strL "a"] [[(strL "a", strL "xyz")]] 1 ++
        (if 1 < 5 then footerStr 1 5 else []) := by
  have hcw := C6_formatter [strL "a"] [[(strL "a", strL "xyz")]] 5 (by decide)
  exact ⟨hcw.1 (strL "a"), by simpa using hcw.2.1⟩

/-- Claim C7: the renderer returns none on fewer than two columns, no
rows, or no numeric series; otherwise the plotted series are exactly the
columns after the first whose first-row value parses as a float, and an
artifact is produced. -/
theorem C7_renderer_eligibility (columns : List Str) (rows : List Row) :
    (columns.length < 2 ∨ rows = [] → generate_chart_model true columns rows = none) ∧
    ((columns.drop 1).filter (fun c => pyFloatParses (rowGet (rows.headD []) c)) = [] →
      generate_chart_model true columns rows = none) ∧
    (rows ≠ [] → 2 ≤ columns.length →
      (columns.drop 1).filter (fun c => pyFloatParses (rowGet (rows.headD []) c)) ≠ [] →
      generate_chart_model true columns rows =
        some ((columns.drop 1).filter (fun c => pyFloatParses (rowGet (rows.headD []) c))) ∧
      ∀ c, c ∈ (columns.drop 1).filter (fun c => pyFloatParses (rowGet (rows.headD []) c)) ↔
        (c ∈ columns.drop 1 ∧ pyFloatParses (rowGet (rows.headD []) c) = true)) := by
  refine ⟨?_, ?_, ?_⟩
  · intro hcase
    have hcond : (rows.isEmpty || decide (columns.length < 2)) = true := by
      rcases hcase with h1 | h1
      · simp [h1]
      · simp [h1]
    simp [generate_chart_model, hcond]
  · intro hfil
    by_cases hcond : (rows.isEmpty || decide (columns.length < 2)) = true
    · simp [generate_chart_model, hcond]
    · simp only [generate_chart_model, Bool.not_true, Bool.false_eq_true, if_false, hfil]
      rw [if_neg hcond]
  · intro hr hc hf
    have h1 : rows.isEmpty = false := by
      cases rows with
      | nil => exact absurd rfl hr
      | cons a l => rfl
    have h2 : decide (columns.length < 2) = false := decide_eq_false (by omega)
    obtain ⟨y, ys, hys⟩ : ∃ y ys,
        (columns.drop 1).filter (fun c => pyFloatParses (rowGet (rows.headD []) c)) = y :: ys := by
      cases hfil : (columns.drop 1).filter (fun c => pyFloatParses (rowGet (rows.headD []) c)) with
      | nil => exact absurd hfil hf
      | cons y ys => exact ⟨y, ys, rfl⟩
    constructor
    · unfold generate_chart_model
      rw [if_neg (by decide : ¬ ((!true) = true))]
      rw [if_neg (by rw [h1, h2]; decide)]
      rw [hys]
    · intro c
      exact List.mem_filter

/-- Concrete instantiation of Claim C7: the spec's example produces the
`revenue` series. -/
theorem C7_witness :
    generate_chart_model true chartCols chartRows = some [strL "revenue"] := by
  have h := ((C7_renderer_eligibility chartCols chartRows).2.2 (by decide) (by decide)
    (by decide)).1
  have e : (chartCols.drop 1).filter (fun c => pyFloatParses (rowGet (chartRows.headD []) c)) =
      [strL "revenue"] := by decide
  rw [e] at h
  exact h

/-- Claim C8: `cleanup_chart` deletes an existing file so it no longer
exists, is a no-op on a missing path, and is idempotent; being a total
function it never raises. -/
theorem C8_dispose (fs : List Str) (path : Str) :
    (path ≠ [] → path ∈ fs → path ∉ cleanup_chart fs path) ∧
    (path ∉ fs → cleanup_chart fs path = fs) ∧
    cleanup_chart (cleanup_chart fs path) path = cleanup_chart fs path := by
  refine ⟨?_, ?_, ?_⟩
  · intro h1 h2 hmem
    unfold cleanup_chart at hmem
    rw [if_pos ⟨h1, h2⟩] at hmem
    rw [List.mem_filter] at hmem
    simp at hmem
  · intro h1
    unfold cleanup_chart
    rw [if_neg (fun hc => h1 hc.2)]
  · by_cases hcc : path ≠ [] ∧ path ∈ fs
    · have hnot : path ∉ fs.filter (fun q => decide (q ≠ path)) := by
        intro hmem
        rw [List.mem_filter] at hmem
        simp at hmem
      have hfe : cleanup_chart fs path = fs.filter (fun q => decide (q ≠ path)) := by
        unfold cleanup_chart
        rw [if_pos hcc]
      rw [hfe]
      unfold cleanup_chart
      rw [if_neg (fun hx => hnot hx.2)]
    · have hfe : cleanup_chart fs path = fs := by
        unfold cleanup_chart
        rw [if_neg hcc]
      rw [hfe]
      exact hfe

/-- Concrete instantiation of Claim C8: deleting an existing artifact
removes it; disposing a never-created path is a no-op. -/
theorem C8_witness :
    strL "/tmp/a.png" ∉ cleanup_chart [strL "/tmp/a.png"] (strL "/tmp/a.png") ∧
    cleanup_chart [strL "/tmp/b.png"] (strL "/tmp/a.png") = [strL "/tmp/b.png"] := by
  constructor
  · exact (C8_dispose [strL "/tmp/a.png"] (strL "/tmp/a.png")).1 (by decide) (by decide)
  · exact (C8_dispose [strL "/tmp/b.png"] (strL "/tmp/a.png")).2.1 (by decide)

/-- Claim C10: with the plotting library unavailable the renderer returns
none on every input, without error. -/
theorem C10_matplotlib_unavailable (columns : List Str) (rows : List Row) :
    generate_chart_model false columns rows = none := rfl

/-- Claim C3 counterexample: when the store raises, control jumps from the
`try` body to `finally`, so `putconn` runs without a preceding rollback —
the claim's "rolls back on every exit path" fails on the exception path. -/
theorem C3_counterexample :
    DbEv.rollback ∉ (execute_query_events (Except.error (strL "syntax error"))).2 ∧
    DbEv.putconn ∈ (execute_query_events (Except.error (strL "syntax error"))).2 := by
  decide

/-- Claim C3 (amended): the executor never commits, releases the
connection last on every exit path, and on the success path rolls back
before the release. -/
theorem C3_amended_exit_paths (fetch : Except Str (List Row)) :
    DbEv.commit ∉ (execute_query_events fetch).2 ∧
    (execute_query_events fetch).2.getLast? = some DbEv.putconn ∧
    (∀ rows, fetch = Except.ok rows →
      (execute_query_events fetch).2 = [DbEv.runQuery, DbEv.rollback, DbEv.putconn]) := by
  cases fetch with
  | ok rows =>
    have he : (execute_query_events (Except.ok rows)).2 =
        [DbEv.runQuery, DbEv.rollback, DbEv.putconn] := rfl
    rw [he]
    exact ⟨by decide, by decide, fun _ _ => rfl⟩
  | error e =>
    have he : (execute_query_events (Except.error e)).2 = [DbEv.runQuery, DbEv.putconn] := rfl
    rw [he]
    exact ⟨by decide, by decide, fun rows hc => by cases hc⟩

/-- Concrete instantiation of Claim C3 (amended) on a successful fetch. -/
theorem C3_witness :
    (execute_query_events (Except.ok ([] : List Row))).2 =
      [DbEv.runQuery, DbEv.rollback, DbEv.putconn] :=
  (C3_amended_exit_paths (Except.ok [])).2.2 [] rfl

theorem chartBlock_no_respond (ro : RenderOutcome) (uploadOk : Bool) :
    ∀ a ∈ chartBlock ro uploadOk, isRespondAct a = false := by
  intro a ha
  cases ro with
  | noChart => simp [chartBlock] at ha
  | chartPath p =>
    cases uploadOk <;> simp [chartBlock] at ha <;> rcases ha with rfl | rfl | rfl <;> rfl
  | raiseAfterCreate p =>
    simp [chartBlock] at ha
    rcases ha with rfl | rfl <;> rfl
  | raiseBeforeCreate =>
    simp [chartBlock] at ha
    subst ha
    rfl

theorem processTrace_synthError {llm : Except Str Str} {e : Str} (h : synthStep llm = .error e)
    (store : Except Str (List Row)) (ro : RenderOutcome) (uploadOk : Bool) :
    processTrace llm store ro uploadOk = [Act.callLLM, Act.respondSynthError] := by
  unfold processTrace
  rw [h]

theorem processTrace_execError {llm : Except Str Str} {sql e : Str}
    (h1 : synthStep llm = .ok sql) {store : Except Str (List Row)} (h2 : store = .error e)
    (ro : RenderOutcome) (uploadOk : Bool) :
    processTrace llm store ro uploadOk = [Act.callLLM, Act.runSQL, Act.respondExecError] := by
  unfold processTrace
  rw [h1, h2]

theorem processTrace_ok {llm : Except Str Str} {sql : Str}
    (h1 : synthStep llm = .ok sql) {store : Except Str (List Row)} {allRows : List Row}
    (h2 : store = .ok allRows) (ro : RenderOutcome) (uploadOk : Bool) :
    processTrace llm store ro uploadOk =
      Act.callLLM :: Act.runSQL :: Act.respondResults ::
        (if is_date_range_query sql && !(execute_query_model allRows).2.1.isEmpty
         then chartBlock ro uploadOk else []) := by
  unfold processTrace
  rw [h1, h2]

/-- Claim C4 counterexample: on a request whose renderer raises after
creating the temp file, the artifact is created once and deleted zero
times — "deleted exactly once, including when chart creation fails
partway" fails on the code. -/
theorem C4_counterexample :
    countCreate chartPathEx
        (processTrace okLlm okStore (RenderOutcome.raiseAfterCreate chartPathEx) true) = 1 ∧
    countDelete chartPathEx
        (processTrace okLlm okStore (RenderOutcome.raiseAfterCreate chartPathEx) true) = 0 := by
  decide

/-- Claim C4 (amended): once the primary result is delivered no further
user-facing respond occurs (chart failures are logged only); every
artifact the renderer returns is deleted exactly as often as created,
including when the upload fails; an artifact orphaned by a renderer
exception after file creation is never deleted. -/
theorem C4_chart_isolation (llm : Except Str Str) (store : Except Str (List Row))
    (ro : RenderOutcome) (uploadOk : Bool) (p : Str) :
    (Act.respondResults ∈ processTrace llm store ro uploadOk →
      ∀ a ∈ processTrace llm store ro uploadOk,
        a = Act.respondResults ∨ isRespondAct a = false) ∧
    (ro = RenderOutcome.chartPath p →
      countDelete p (processTrace llm store ro uploadOk) =
        countCreate p (processTrace llm store ro uploadOk)) ∧
    (ro = RenderOutcome.raiseAfterCreate p →
      countDelete p (processTrace llm store ro uploadOk) = 0) := by
  rcases hs : synthStep llm with e | sql
  · rw [processTrace_synthError hs store ro uploadOk]
    refine ⟨?_, ?_, ?_⟩
    · intro hmem
      simp at hmem
    · intro _
      simp [countDelete, countCreate]
    · intro _
      simp [countDelete]
  · rcases hst : store with e | allRows
    · rw [processTrace_execError hs rfl ro uploadOk]
      refine ⟨?_, ?_, ?_⟩
      · intro hmem
        simp at hmem
      · intro _
        simp [countDelete, countCreate]
      · intro _
        simp [countDelete]
    · rw [processTrace_ok hs rfl ro uploadOk]
      by_cases hch :
          (is_date_range_query sql && !(execute_query_model allRows).2.1.isEmpty) = true
      · rw [if_pos hch]
        refine ⟨?_, ?_, ?_⟩
        · intro _ a ha
          simp only [List.mem_cons] at ha
          rcases ha with rfl | rfl | rfl | ha
          · right; rfl
          · right; rfl
          · left; rfl
          · right; exact chartBlock_no_respond ro uploadOk a ha
        · rintro rfl
          cases uploadOk <;> simp [chartBlock, countCreate, countDelete]
        · rintro rfl
          simp [chartBlock, countCreate, countDelete]
      · rw [if_neg hch]
        refine ⟨?_, ?_, ?_⟩
        · intro _ a ha
          simp only [List.mem_cons] at ha
          rcases ha with rfl | rfl | rfl | ha
          · right; rfl
          · right; rfl
          · left; rfl
          · simp at ha
        · rintro rfl
          simp [countCreate, countDelete]
        · rintro rfl
          simp [countDelete]

/-- Concrete instantiation of Claim C4 (amended): with a returned path and
a failing upload the delete count equals the create count, and the chart
failure log action is not a user-facing respond. -/
theorem C4_witness :
    countDelete chartPathEx
        (processTrace okLlm okStore (RenderOutcome.chartPath chartPathEx) false) =
      countCreate chartPathEx
        (processTrace okLlm okStore (RenderOutcome.chartPath chartPathEx) false) ∧
    (Act.chartLogFail = Act.respondResults ∨ isRespondAct Act.chartLogFail = false) := by
  have h := C4_chart_isolation okLlm okStore (RenderOutcome.chartPath chartPathEx) false
    chartPathEx
  exact ⟨h.2.1 rfl, h.1 (by decide) Act.chartLogFail (by decide)⟩

theorem pyStrip_nil_of_all_space {l : Str} (h : ∀ c ∈ l, pyIsSpace c = true) :
    pyStrip l = [] := by
  unfold pyStrip
  rw [List.dropWhile_eq_nil_iff.mpr h]
  rfl

/-- Claim C9: a command whose text is empty or whitespace-only gets the
usage hint immediately and invokes no pipeline stage. -/
theorem C9_empty_question (text : Option Str) (llm : Except Str Str)
    (store : Except Str (List Row)) (ro : RenderOutcome) (uploadOk : Bool)
    (h : ∀ c ∈ text.getD [], pyIsSpace c = true) :
    handle_ask_data_trace text llm store ro uploadOk = [Act.ack, Act.respondUsage] ∧
    Act.callLLM ∉ handle_ask_data_trace text llm store ro uploadOk ∧
    Act.runSQL ∉ handle_ask_data_trace text llm store ro uploadOk ∧
    (∀ p, Act.chartCreate p ∉ handle_ask_data_trace text llm store ro uploadOk) := by
  have he : handle_ask_data_trace text llm store ro uploadOk = [Act.ack, Act.respondUsage] := by
    unfold handle_ask_data_trace
    rw [if_pos (pyStrip_nil_of_all_space h)]
  refine ⟨he, ?_, ?_, fun p => ?_⟩ <;> rw [he] <;> simp

/-- Concrete instantiation of Claim C9 on a whitespace-only command. -/
theorem C9_witness :
    handle_ask_data_trace (some (strL "   ")) okLlm okStore RenderOutcome.noChart true =
      [Act.ack, Act.respondUsage] :=
  (C9_empty_question (some (strL "   ")) okLlm okStore RenderOutcome.noChart true (by decide)).1

end EvvoBot
